import Mathlib

/-!
# Verification of the BinDist API client (bindist-api-python)

Shallow embedding of `src/bindist/base.py`, `src/bindist/admin.py` and
`src/bindist/customer.py`, and proofs of the specification claims about
the envelope decoder, the large-file upload orchestration, the
checksum-verified download, and the request-header discipline.

Python values that flow through the client untyped (JSON bodies, the
fields of the decoded envelope) are modelled by the inductive `Json`
below; Python `None` is `Json.null` and the Python booleans are
`Json.bool`.  Python exceptions raised by the embedded fragments
(`AttributeError` from calling `.get` on a non-dict, `KeyError` /
`TypeError` from subscripting) are modelled with `Except`.
The network is modelled as an environment supplying the decoded
responses of the remote endpoints; each orchestrator additionally
returns the trace of outgoing calls it performed, with the argument
values it passed.
-/

/-- A JSON / dynamic Python value: `null` (Python `None`), booleans,
numbers, strings, arrays (Python lists) and objects (Python dicts,
as association lists of string keys). -/
inductive Json where
  | null : Json
  | bool (b : Bool) : Json
  | num (n : Int) : Json
  | str (s : String) : Json
  | arr (xs : List Json) : Json
  | obj (fs : List (String × Json)) : Json
deriving Repr

mutual

/-- Boolean equality of `Json` values (component-wise). -/
def Json.beq : Json → Json → Bool
  | .null, .null => true
  | .bool a, .bool b => a == b
  | .num a, .num b => a == b
  | .str a, .str b => a == b
  | .arr xs, .arr ys => Json.beqList xs ys
  | .obj fs, .obj gs => Json.beqObj fs gs
  | _, _ => false

/-- Boolean equality of `Json` lists. -/
def Json.beqList : List Json → List Json → Bool
  | [], [] => true
  | x :: xs, y :: ys => Json.beq x y && Json.beqList xs ys
  | _, _ => false

/-- Boolean equality of `Json` object field lists. -/
def Json.beqObj : List (String × Json) → List (String × Json) → Bool
  | [], [] => true
  | (k, v) :: fs, (l, w) :: gs => k == l && Json.beq v w && Json.beqObj fs gs
  | _, _ => false

end

mutual

theorem Json.beq_iff : ∀ a b : Json, Json.beq a b = true ↔ a = b
  | .null, .null => by simp [Json.beq]
  | .bool a, .bool b => by simp [Json.beq]
  | .num a, .num b => by simp [Json.beq]
  | .str a, .str b => by simp [Json.beq]
  | .arr xs, .arr ys => by
      simp only [Json.beq, Json.beqList_iff xs ys, Json.arr.injEq]
  | .obj fs, .obj gs => by
      simp only [Json.beq, Json.beqObj_iff fs gs, Json.obj.injEq]
  | .null, .bool _ | .null, .num _ | .null, .str _ | .null, .arr _
  | .null, .obj _ | .bool _, .null | .bool _, .num _ | .bool _, .str _
  | .bool _, .arr _ | .bool _, .obj _ | .num _, .null | .num _, .bool _
  | .num _, .str _ | .num _, .arr _ | .num _, .obj _ | .str _, .null
  | .str _, .bool _ | .str _, .num _ | .str _, .arr _ | .str _, .obj _
  | .arr _, .null | .arr _, .bool _ | .arr _, .num _ | .arr _, .str _
  | .arr _, .obj _ | .obj _, .null | .obj _, .bool _ | .obj _, .num _
  | .obj _, .str _ | .obj _, .arr _ => by simp [Json.beq]

theorem Json.beqList_iff : ∀ xs ys : List Json,
    Json.beqList xs ys = true ↔ xs = ys
  | [], [] => by simp [Json.beqList]
  | x :: xs, y :: ys => by
      simp only [Json.beqList, Bool.and_eq_true, Json.beq_iff x y,
        Json.beqList_iff xs ys, List.cons.injEq]
  | [], _ :: _ => by simp [Json.beqList]
  | _ :: _, [] => by simp [Json.beqList]

theorem Json.beqObj_iff : ∀ fs gs : List (String × Json),
    Json.beqObj fs gs = true ↔ fs = gs
  | [], [] => by simp [Json.beqObj]
  | (k, v) :: fs, (l, w) :: gs => by
      simp only [Json.beqObj, Bool.and_eq_true, beq_iff_eq,
        Json.beq_iff v w, Json.beqObj_iff fs gs, List.cons.injEq,
        Prod.mk.injEq, and_assoc]
  | [], _ :: _ => by simp [Json.beqObj]
  | _ :: _, [] => by simp [Json.beqObj]

end

instance : DecidableEq Json := fun a b => decidable_of_iff _ (Json.beq_iff a b)

/-- Python truthiness of a value: `None`, `False`, `0`, `""`, `[]` and
`{}` are falsy, everything else truthy. -/
def Json.truthy : Json → Bool
  | .null => false
  | .bool b => b
  | .num n => n != 0
  | .str s => s != ""
  | .arr [] => false
  | .arr (_ :: _) => true
  | .obj [] => false
  | .obj (_ :: _) => true

/-- Whether the value is Python `None` (`x is None`). -/
def Json.isNull : Json → Bool
  | .null => true
  | _ => false

/-- Python exceptions raised by the embedded code. -/
inductive PyError where
  | attributeError : PyError
  | keyError : PyError
  | typeError : PyError
deriving DecidableEq, Repr

/-- Python `d.get(key, default)`: only a dict has the `.get` attribute,
so on any non-object value this raises `AttributeError`. -/
def Json.dictGet (j : Json) (key : String) (default : Json) :
    Except PyError Json :=
  match j with
  | .obj fs => .ok ((fs.lookup key).getD default)
  | _ => .error .attributeError

/-- Python `d[key]` on a decoded JSON value: `KeyError` when the key is
absent from a dict, `TypeError` when the value is not a dict at all. -/
def Json.subscript (j : Json) (key : String) : Except PyError Json :=
  match j with
  | .obj fs =>
    match fs.lookup key with
    | some v => .ok v
    | none => .error .keyError
  | _ => .error .typeError

/-- Python `d.get(key)` on a value already known to be a dict
(total variant used after a successful subscript has established
the dict shape). -/
def Json.dictGetD (j : Json) (key : String) (default : Json) : Json :=
  match j with
  | .obj fs => (fs.lookup key).getD default
  | _ => default

/-- Python `j == s` for a string `s`: values of different types are
never equal, strings compare exactly (case-sensitively). -/
def Json.pyEqStr : Json → String → Bool
  | .str t, s => t = s
  | _, _ => false

/-! ## SHA-256 (`hashlib.sha256(content).hexdigest()`)

A byte is a `Nat` (taken mod 256 where it is consumed); 32-bit words
are `Nat`s kept below `2^32` by reducing mod `2^32` after every
arithmetic step. -/

/-- `2^32`, the modulus of the 32-bit word arithmetic. -/
def m32 : Nat := 4294967296

/-- Right-rotation of a 32-bit word. -/
def rotr32 (n x : Nat) : Nat := ((x >>> n) ||| (x <<< (32 - n))) % m32

/-- SHA-256 small sigma 0. -/
def ssig0 (x : Nat) : Nat := rotr32 7 x ^^^ rotr32 18 x ^^^ (x >>> 3)

/-- SHA-256 small sigma 1. -/
def ssig1 (x : Nat) : Nat := rotr32 17 x ^^^ rotr32 19 x ^^^ (x >>> 10)

/-- SHA-256 big sigma 0. -/
def bsig0 (x : Nat) : Nat := rotr32 2 x ^^^ rotr32 13 x ^^^ rotr32 22 x

/-- SHA-256 big sigma 1. -/
def bsig1 (x : Nat) : Nat := rotr32 6 x ^^^ rotr32 11 x ^^^ rotr32 25 x

/-- SHA-256 choice function. -/
def shaCh (e f g : Nat) : Nat := (e &&& f) ^^^ ((e ^^^ 4294967295) &&& g)

/-- SHA-256 majority function. -/
def shaMaj (a b c : Nat) : Nat := (a &&& b) ^^^ (a &&& c) ^^^ (b &&& c)

/-- The 64 SHA-256 round constants. -/
def shaK : List Nat :=
  [1116352408, 1899447441, 3049323471, 3921009573,
   961987163, 1508970993, 2453635748, 2870763221,
   3624381080, 310598401, 607225278, 1426881987,
   1925078388, 2162078206, 2614888103, 3248222580,
   3835390401, 4022224774, 264347078, 604807628,
   770255983, 1249150122, 1555081692, 1996064986,
   2554220882, 2821834349, 2952996808, 3210313671,
   3336571891, 3584528711, 113926993, 338241895,
   666307205, 773529912, 1294757372, 1396182291,
   1695183700, 1986661051, 2177026350, 2456956037,
   2730485921, 2820302411, 3259730800, 3345764771,
   3516065817, 3600352804, 4094571909, 275423344,
   430227734, 506948616, 659060556, 883997877,
   958139571, 1322822218, 1537002063, 1747873779,
   1955562222, 2024104815, 2227730452, 2361852424,
   2428436474, 2756734187, 3204031479, 3329325298]

/-- The eight-word SHA-256 working state. -/
structure Sha256State where
  a : Nat
  b : Nat
  c : Nat
  d : Nat
  e : Nat
  f : Nat
  g : Nat
  h : Nat
deriving DecidableEq, Repr

/-- The SHA-256 initial hash value. -/
def shaInit : Sha256State :=
  ⟨1779033703, 3144134277, 1013904242, 2773480762,
   1359893119, 2600822924, 528734635, 1541459225⟩

/-- One SHA-256 compression round with round constant `k` and
schedule word `w`. -/
def shaRound (s : Sha256State) (k w : Nat) : Sha256State :=
  let t1 := (s.h + bsig1 s.e + shaCh s.e s.f s.g + k + w) % m32
  let t2 := (bsig0 s.a + shaMaj s.a s.b s.c) % m32
  ⟨(t1 + t2) % m32, s.a, s.b, s.c, (s.d + t1) % m32, s.e, s.f, s.g⟩

/-- Four big-endian bytes as one 32-bit word. -/
def word32OfBytes (a b c d : Nat) : Nat :=
  ((a % 256) <<< 24) ||| ((b % 256) <<< 16) ||| ((c % 256) <<< 8) ||| (d % 256)

/-- The first sixteen schedule words of a 64-byte block. -/
def blockWords : List Nat → List Nat
  | a :: b :: c :: d :: rest => word32OfBytes a b c d :: blockWords rest
  | _ => []

/-- Extend the sixteen block words to the 64-word message schedule. -/
def shaSchedule (w16 : List Nat) : List Nat :=
  (List.range 48).foldl
    (fun w _ =>
      let n := w.length
      w ++ [(ssig1 (w.getD (n - 2) 0) + w.getD (n - 7) 0 +
             ssig0 (w.getD (n - 15) 0) + w.getD (n - 16) 0) % m32])
    w16

/-- Add two SHA-256 states word-wise mod `2^32`. -/
def shaAdd (x y : Sha256State) : Sha256State :=
  ⟨(x.a + y.a) % m32, (x.b + y.b) % m32, (x.c + y.c) % m32,
   (x.d + y.d) % m32, (x.e + y.e) % m32, (x.f + y.f) % m32,
   (x.g + y.g) % m32, (x.h + y.h) % m32⟩

/-- Compress one 64-byte block into the running hash state. -/
def shaCompress (s : Sha256State) (block : List Nat) : Sha256State :=
  let ws := shaSchedule (blockWords block)
  shaAdd s ((shaK.zip ws).foldl (fun st kw => shaRound st kw.1 kw.2) s)

/-- SHA-256 padding: append `0x80`, zero bytes to 56 mod 64, then the
original bit length as eight big-endian bytes. -/
def shaPad (msg : List Nat) : List Nat :=
  let bitLen := msg.length * 8
  let zeros := (119 - msg.length % 64) % 64
  msg ++ [0x80] ++ List.replicate zeros 0 ++
    (List.range 8).map (fun i => (bitLen >>> ((7 - i) * 8)) % 256)

/-- Split a byte list into 64-byte blocks (structural recursion on a
fuel bounded by the list length, so that the kernel can evaluate it). -/
def chunks64Go (fuel : Nat) (xs : List Nat) : List (List Nat) :=
  match fuel, xs with
  | 0, _ => []
  | _ + 1, [] => []
  | fuel + 1, x :: xs => ((x :: xs).take 64) :: chunks64Go fuel ((x :: xs).drop 64)

/-- Split a byte list into 64-byte blocks. -/
def chunks64 (xs : List Nat) : List (List Nat) := chunks64Go xs.length xs

/-- One 32-bit word as eight lowercase hex characters. -/
def wordToHex (w : Nat) : String :=
  String.mk ((List.range 8).map (fun i =>
    let d := (w >>> ((7 - i) * 4)) % 16
    if d < 10 then Char.ofNat (48 + d) else Char.ofNat (87 + d)))

/-- `hashlib.sha256(msg).hexdigest()`: the SHA-256 digest of a byte
string as a 64-character lowercase hex string. -/
def sha256hex (msg : List Nat) : String :=
  let s := (chunks64 (shaPad msg)).foldl shaCompress shaInit
  wordToHex s.a ++ wordToHex s.b ++ wordToHex s.c ++ wordToHex s.d ++
  wordToHex s.e ++ wordToHex s.f ++ wordToHex s.g ++ wordToHex s.h

/-! ## The HTTP transport and the envelope decoder (`src/bindist/base.py`)

`requests.Response` is modelled by the three accessors the decoder
uses: `status_code`, `text` (the raw body text) and the outcome of
`response.json()` — `some v` when the body parses as the JSON value
`v`, `none` when parsing raises `JSONDecodeError`.  Quantifying over
`jsonBody` independently of `text` is exactly the case split the
decoder makes; only the parse-failure branch reads `text`. -/

/-- A received HTTP response, as seen through the accessors
`ApiResponse.from_response` uses. -/
structure HttpResponse where
  status_code : Nat
  text : String
  jsonBody : Option Json
deriving DecidableEq, Repr

/-- `ApiResponse` (base.py): the decoded envelope.  The Python fields
are dynamically typed — `success` is whatever value the `success` key
held — so every field is a `Json` value; Python `None` is `Json.null`. -/
structure ApiResponse where
  success : Json
  status_code : Nat
  data : Json
  error : Json
  meta : Json
  raw : Json
deriving DecidableEq, Repr

/-- The body the decoder synthesizes when the HTTP body is not JSON:
`{'success': False, 'error': {'message': response.text}}`. -/
def synthesizedBody (text : String) : Json :=
  Json.obj [("success", Json.bool false),
            ("error", Json.obj [("message", Json.str text)])]

/-- The JSON value `from_response` works on: the parsed body on parse
success, the synthesized failure body on `JSONDecodeError`. -/
def decodedBody (response : HttpResponse) : Json :=
  match response.jsonBody with
  | some j => j
  | none => synthesizedBody response.text

/-- `ApiResponse.from_response` (base.py lines 18–33).  Reads the
envelope keys with `json_data.get(...)`; on a body that decodes to a
non-dict JSON value (array, string, number, ...) the `.get` call
raises `AttributeError`, modelled as `Except.error`. -/
def ApiResponse.from_response (response : HttpResponse) :
    Except PyError ApiResponse :=
  match (decodedBody response).dictGet "success" (Json.bool false) with
  | .error e => .error e
  | .ok success =>
    match (decodedBody response).dictGet "data" Json.null with
    | .error e => .error e
    | .ok data =>
      match (decodedBody response).dictGet "error" Json.null with
      | .error e => .error e
      | .ok error =>
        match (decodedBody response).dictGet "meta" Json.null with
        | .error e => .error e
        | .ok meta =>
          .ok { success := success, status_code := response.status_code,
                data := data, error := error, meta := meta,
                raw := decodedBody response }

/-! ## Request construction and headers (`BaseClient`)

The header discipline of `BaseClient`: `__init__` installs the bearer
token and the JSON content type on the session; `get`/`post`/`patch`/
`delete` go through the session (session headers merged with the
optional per-call headers, per-call winning, as `requests` merges
them); `put_binary` and `download` deliberately bypass the session and
call module-level `requests.put`/`requests.get`, so they carry only
the headers written at their call sites. -/

/-- A `BaseClient` instance: the configuration its constructor stores. -/
structure BaseClient where
  base_url : String
  api_key : String
deriving DecidableEq, Repr

/-- The headers `BaseClient.__init__` installs on the session. -/
def BaseClient.sessionHeaders (c : BaseClient) : List (String × String) :=
  [("Authorization", "Bearer " ++ c.api_key),
   ("Content-Type", "application/json")]

/-- `BaseClient._url`: prefix a path with the base URL and version. -/
def BaseClient.url (c : BaseClient) (path : String) : String :=
  c.base_url ++ "/v1" ++ path

/-- How `requests` merges session headers with per-call headers: the
per-call value wins for a key set in both, session entries survive
otherwise. -/
def mergeHeaders (base extra : List (String × String)) :
    List (String × String) :=
  base.filter (fun p => (extra.lookup p.1).isNone) ++ extra

/-- An outgoing HTTP request: method, URL and the headers the client
code explicitly sets on it. -/
structure Request where
  method : String
  url : String
  headers : List (String × String)
deriving DecidableEq, Repr

/-- The request `BaseClient.get`/`post`/`patch`/`delete` issue for a
given method: through the session, so the session headers merged with
the optional per-call headers. -/
def BaseClient.sessionRequest (c : BaseClient) (method path : String)
    (headers : Option (List (String × String))) : Request :=
  { method := method, url := c.url path,
    headers := mergeHeaders c.sessionHeaders (headers.getD []) }

/-- `BaseClient.get`: a GET through the authenticated session. -/
def BaseClient.get_request (c : BaseClient) (path : String)
    (headers : Option (List (String × String))) : Request :=
  c.sessionRequest "GET" path headers

/-- `BaseClient.post`: a POST through the authenticated session. -/
def BaseClient.post_request (c : BaseClient) (path : String)
    (headers : Option (List (String × String))) : Request :=
  c.sessionRequest "POST" path headers

/-- `BaseClient.patch`: a PATCH through the authenticated session. -/
def BaseClient.patch_request (c : BaseClient) (path : String)
    (headers : Option (List (String × String))) : Request :=
  c.sessionRequest "PATCH" path headers

/-- `BaseClient.delete`: a DELETE through the authenticated session. -/
def BaseClient.delete_request (c : BaseClient) (path : String)
    (headers : Option (List (String × String))) : Request :=
  c.sessionRequest "DELETE" path headers

/-- The request `BaseClient.put_binary` issues: module-level
`requests.put(url, data=..., headers={'Content-Type': content_type})`,
bypassing the session — note the client configuration is not consulted. -/
def BaseClient.put_binary_request (_c : BaseClient) (url : String)
    (content_type : String) : Request :=
  { method := "PUT", url := url, headers := [("Content-Type", content_type)] }

/-- The request `BaseClient.download` issues: module-level
`requests.get(url)` with no explicit headers, bypassing the session. -/
def BaseClient.download_request (_c : BaseClient) (url : String) : Request :=
  { method := "GET", url := url, headers := [] }

/-! ## The large-file upload orchestrator (`AdminClient.upload_large_file`)

The network is an environment supplying, in order, the decoded
envelope of the request-upload-URL call, the raw storage response of
the S3 PUT, and the decoded envelope of the completion call.  The
orchestrator returns its Python result (an `ApiResponse`, or a raised
exception) together with the trace of outgoing calls, carrying the
argument values the code passed. -/

/-- The raw storage response of the pre-signed PUT (`requests.put`):
the two accessors the orchestrator uses. -/
structure S3Response where
  status_code : Nat
  text : String
deriving DecidableEq, Repr

/-- The responses the remote ends give to the three possible calls of
one `upload_large_file` run. -/
structure UploadEnv where
  urlResponse : ApiResponse
  s3Response : S3Response
  completeResponse : ApiResponse
deriving DecidableEq, Repr

/-- One outgoing call of `upload_large_file`, with the arguments the
code passed to it. -/
inductive UploadEvent where
  | requestUrl (application_id version file_name : String)
      (file_size : Nat) (content_type : String) : UploadEvent
  | s3Put (upload_url : Json) (data : List Nat) : UploadEvent
  | complete (upload_id : Json) (application_id version file_name : String)
      (file_size : Nat) (checksum : String)
      (release_notes : Option String) : UploadEvent
deriving DecidableEq, Repr

/-- The abort guard `not response.success or response.data is None`,
written identically at admin.py line 213 and customer.py line 175. -/
def envelopeFailed (r : ApiResponse) : Bool :=
  !r.success.truthy || r.data.isNull

/-- `AdminClient.upload_large_file` (admin.py lines 181–242).
Computes `file_size` and `checksum` up front, then: request upload URL
(abort returning that envelope unchanged when it is unsuccessful or
carries no data), PUT the bytes to storage (abort with a synthesized
failure envelope when the storage status is not 200), and complete the
upload with the checksum computed at the start.  The subscripts
`data["uploadId"]` / `data["uploadUrl"]` raise when the key is absent
or `data` is not a dict. -/
def upload_large_file (env : UploadEnv)
    (application_id version file_name : String)
    (file_content : List Nat) (release_notes : Option String) :
    Except PyError ApiResponse × List UploadEvent :=
  let file_size := file_content.length
  let checksum := sha256hex file_content
  let ev1 := UploadEvent.requestUrl application_id version file_name
    file_size "application/octet-stream"
  let url_response := env.urlResponse
  if envelopeFailed url_response then
    (.ok url_response, [ev1])
  else
    match url_response.data.subscript "uploadId" with
    | .error e => (.error e, [ev1])
    | .ok upload_id =>
      match url_response.data.subscript "uploadUrl" with
      | .error e => (.error e, [ev1])
      | .ok upload_url =>
        let ev2 := UploadEvent.s3Put upload_url file_content
        let s3 := env.s3Response
        if s3.status_code ≠ 200 then
          (.ok { success := Json.bool false,
                 status_code := s3.status_code,
                 data := Json.null,
                 error := Json.obj
                   [("message", Json.str ("S3 upload failed: " ++ s3.text))],
                 meta := Json.null,
                 raw := Json.obj [("error", Json.str s3.text)] },
           [ev1, ev2])
        else
          (.ok env.completeResponse,
           [ev1, ev2,
            UploadEvent.complete upload_id application_id version file_name
              file_size checksum release_notes])

/-! ## Checksum-verified download (`CustomerClient.download_file`)

The environment supplies the decoded envelope of the get-download-URL
call and the bytes the storage GET returns (the raw GET is assumed to
succeed; a non-2xx storage response propagates as a transport
exception outside the embedded fragment).  Raised exceptions are the
`DlError` constructors. -/

/-- The responses the remote ends give to one `download_file` run. -/
structure DownloadEnv where
  urlResponse : ApiResponse
  body : List Nat
deriving DecidableEq, Repr

/-- The exceptions `download_file` can raise:
`Exception("Failed to get download URL: ...")` carrying the envelope's
error, a `KeyError`/`TypeError` from `data["url"]`, and
`ValueError("Checksum mismatch: expected ..., got ...")` carrying both
digests. -/
inductive DlError where
  | downloadUrlError (err : Json) : DlError
  | py (e : PyError) : DlError
  | checksumMismatch (expected : Json) (actual : String) : DlError
deriving DecidableEq, Repr

/-- The metadata dict `download_file` builds from the download-URL
response data. -/
def downloadMetadata (data : Json) : Json :=
  Json.obj [("fileName", data.dictGetD "fileName" Json.null),
            ("fileSize", data.dictGetD "fileSize" Json.null),
            ("checksum", data.dictGetD "checksum" Json.null),
            ("expiresAt", data.dictGetD "expiresAt" Json.null)]

/-- `CustomerClient.download_file` (customer.py lines 143–198).
Gets the download URL (raising when the envelope is unsuccessful or
its data is `None`), reads `data["url"]` (raising on absence), fetches
the bytes, and, when `verify_checksum` is set and the supplied
checksum is truthy, compares the SHA-256 hex digest of the bytes
against it, raising on mismatch. -/
def download_file (env : DownloadEnv) (verify_checksum : Bool) :
    Except DlError (List Nat × Json) :=
  let url_response := env.urlResponse
  if envelopeFailed url_response then
    .error (.downloadUrlError url_response.error)
  else
    match url_response.data.subscript "url" with
    | .error e => .error (.py e)
    | .ok _download_url =>
      let data := url_response.data
      let expected_checksum := data.dictGetD "checksum" Json.null
      let metadata := downloadMetadata data
      let content := env.body
      if verify_checksum && expected_checksum.truthy then
        let actual_checksum := sha256hex content
        if !expected_checksum.pyEqStr actual_checksum then
          .error (.checksumMismatch expected_checksum actual_checksum)
        else
          .ok (content, metadata)
      else
        .ok (content, metadata)


/-! ## Claims about the envelope decoder (C5, C6, C7) -/

/-- C5 (counterexample): on a non-JSON body the decoder's `raw` is the
whole synthesized body `{success: false, error: {message: <text>}}`,
not the `{error: <raw body text>}` the claim states. -/
theorem decode_failure_raw_not_bare_error :
    ApiResponse.from_response ⟨502, "<html>bad gateway</html>", none⟩ =
      .ok { success := Json.bool false, status_code := 502, data := Json.null,
            error := Json.obj [("message", Json.str "<html>bad gateway</html>")],
            meta := Json.null,
            raw := Json.obj [("success", Json.bool false),
              ("error", Json.obj [("message",
                 Json.str "<html>bad gateway</html>")])] } ∧
    Json.obj [("success", Json.bool false),
        ("error", Json.obj [("message", Json.str "<html>bad gateway</html>")])] ≠
      Json.obj [("error", Json.str "<html>bad gateway</html>")] :=
  ⟨rfl, by decide⟩

/-- C5 (amended): for every HTTP response whose body is not parseable
as JSON, the decoder returns (without raising) an ApiResult with
success=false, data=null, meta=null, error = {message: <raw body
text>}, and raw = the synthesized body {success: false, error:
{message: <raw body text>}}. -/
theorem decode_failure_branch (response : HttpResponse)
    (h : response.jsonBody = none) :
    ApiResponse.from_response response =
      .ok { success := Json.bool false, status_code := response.status_code,
            data := Json.null,
            error := Json.obj [("message", Json.str response.text)],
            meta := Json.null,
            raw := synthesizedBody response.text } := by
  simp [ApiResponse.from_response, decodedBody, h, synthesizedBody,
    Json.dictGet, List.lookup]

/-- Witness for C5 (amended) at a concrete non-JSON response. -/
theorem decode_failure_branch_witness :
    (⟨404, "oops", none⟩ : HttpResponse).jsonBody = none ∧
    ApiResponse.from_response ⟨404, "oops", none⟩ =
      .ok { success := Json.bool false, status_code := 404, data := Json.null,
            error := Json.obj [("message", Json.str "oops")],
            meta := Json.null, raw := synthesizedBody "oops" } :=
  ⟨rfl, decode_failure_branch ⟨404, "oops", none⟩ rfl⟩

/-- C6 (counterexample): a body parsing as the JSON array `[1, 2]`
makes the decoder raise `AttributeError` (the `.get` calls require a
dict), contradicting the claim that it returns an ApiResult for JSON
of any shape. -/
theorem decode_array_body_raises :
    ApiResponse.from_response
        ⟨200, "[1, 2]", some (Json.arr [Json.num 1, Json.num 2])⟩ =
      .error PyError.attributeError := rfl

/-- C6 (amended): for every HTTP response whose body parses as a JSON
object, the decoder returns an ApiResult whose success/data/error/meta
come from the corresponding keys with absent-key defaults (success
defaults to false, the others to null) and whose raw field is the full
decoded object; a body parsing to non-object JSON (array, string,
number, ...) instead raises `AttributeError`. -/
theorem decode_object_body (response : HttpResponse)
    (fs : List (String × Json)) (h : response.jsonBody = some (Json.obj fs)) :
    ApiResponse.from_response response =
      .ok { success := (fs.lookup "success").getD (Json.bool false),
            status_code := response.status_code,
            data := (fs.lookup "data").getD Json.null,
            error := (fs.lookup "error").getD Json.null,
            meta := (fs.lookup "meta").getD Json.null,
            raw := Json.obj fs } := by
  simp [ApiResponse.from_response, decodedBody, h, Json.dictGet]

/-- Witness for C6 (amended) at a concrete JSON-object response. -/
theorem decode_object_body_witness :
    (⟨200, "body", some (Json.obj [("success", Json.bool true),
        ("meta", Json.num 7)])⟩ : HttpResponse).jsonBody =
      some (Json.obj [("success", Json.bool true), ("meta", Json.num 7)]) ∧
    ApiResponse.from_response ⟨200, "body",
        some (Json.obj [("success", Json.bool true), ("meta", Json.num 7)])⟩ =
      .ok { success := Json.bool true, status_code := 200, data := Json.null,
            error := Json.null, meta := Json.num 7,
            raw := Json.obj [("success", Json.bool true),
                             ("meta", Json.num 7)] } :=
  ⟨rfl, decode_object_body _
    [("success", Json.bool true), ("meta", Json.num 7)] rfl⟩

/-- C7: every ApiResult the decoder actually produces satisfies the
invariant: `raw` is the full decoded (or synthesized) body, `success`
is the value of the `success` key of `raw` (defaulting to false when
absent), and `status_code` is the transport status code, independent
of the envelope's own flag. -/
theorem decoder_invariant (response : HttpResponse) (r : ApiResponse)
    (h : ApiResponse.from_response response = .ok r) :
    r.raw = decodedBody response ∧
    r.raw.dictGet "success" (Json.bool false) = .ok r.success ∧
    r.status_code = response.status_code := by
  unfold ApiResponse.from_response at h
  cases hb : decodedBody response with
  | obj fs =>
      rw [hb] at h
      simp only [Json.dictGet, Except.ok.injEq] at h
      subst h
      refine ⟨rfl, ?_, rfl⟩
      simp [Json.dictGet]
  | null => rw [hb] at h; simp [Json.dictGet] at h
  | bool b => rw [hb] at h; simp [Json.dictGet] at h
  | num n => rw [hb] at h; simp [Json.dictGet] at h
  | str s => rw [hb] at h; simp [Json.dictGet] at h
  | arr xs => rw [hb] at h; simp [Json.dictGet] at h

/-- Witness for C7 at a concrete response (HTTP 418 with an empty
JSON-object body, so the envelope flag defaults to false while the
status code stays 418). -/
theorem decoder_invariant_witness :
    ApiResponse.from_response ⟨418, "t", some (Json.obj [])⟩ =
      .ok ⟨Json.bool false, 418, Json.null, Json.null, Json.null,
           Json.obj []⟩ ∧
    ((⟨Json.bool false, 418, Json.null, Json.null, Json.null,
        Json.obj []⟩ : ApiResponse).raw =
      decodedBody ⟨418, "t", some (Json.obj [])⟩ ∧
     (Json.obj []).dictGet "success" (Json.bool false) =
      .ok (Json.bool false) ∧
     (418 : Nat) = 418) :=
  ⟨rfl, decoder_invariant ⟨418, "t", some (Json.obj [])⟩ _ rfl⟩

/-! ## Claims about the upload orchestrator (C1, C2, C3, C9) -/

/-- C2: when the request-upload-URL envelope has `success = False`,
`upload_large_file` returns that very ApiResult unchanged, and the
call trace holds only the request-upload-URL call — no storage PUT and
no completion call. -/
theorem upload_aborts_on_unsuccessful_url_response (env : UploadEnv)
    (application_id version file_name : String) (file_content : List Nat)
    (release_notes : Option String)
    (h : env.urlResponse.success = Json.bool false) :
    upload_large_file env application_id version file_name file_content
        release_notes =
      (.ok env.urlResponse,
       [UploadEvent.requestUrl application_id version file_name
          file_content.length "application/octet-stream"]) := by
  simp [upload_large_file, envelopeFailed, h, Json.truthy]

/-- Witness for C2 at a concrete failing request-upload-URL response. -/
theorem upload_aborts_on_unsuccessful_url_response_witness :
    (UploadEnv.mk
        ⟨Json.bool false, 403, Json.null, Json.obj [("message", Json.str "no")],
         Json.null, Json.obj [("success", Json.bool false)]⟩
        ⟨200, "unreached"⟩
        ⟨Json.bool true, 200, Json.null, Json.null, Json.null,
         Json.obj []⟩).urlResponse.success = Json.bool false ∧
    upload_large_file
        (UploadEnv.mk
          ⟨Json.bool false, 403, Json.null,
           Json.obj [("message", Json.str "no")], Json.null,
           Json.obj [("success", Json.bool false)]⟩
          ⟨200, "unreached"⟩
          ⟨Json.bool true, 200, Json.null, Json.null, Json.null,
           Json.obj []⟩)
        "app" "1.0.0" "f.bin" [1, 2, 3] none =
      (.ok ⟨Json.bool false, 403, Json.null,
            Json.obj [("message", Json.str "no")], Json.null,
            Json.obj [("success", Json.bool false)]⟩,
       [UploadEvent.requestUrl "app" "1.0.0" "f.bin" 3
          "application/octet-stream"]) :=
  ⟨rfl, upload_aborts_on_unsuccessful_url_response _ _ _ _ _ _ rfl⟩

/-- C9: when the request-upload-URL envelope has `success = True` but
`data = None`, `upload_large_file` also returns that ApiResult
unchanged with neither the storage PUT nor the completion call made:
the abort guard tests data presence in addition to the success flag. -/
theorem upload_aborts_on_null_data (env : UploadEnv)
    (application_id version file_name : String) (file_content : List Nat)
    (release_notes : Option String)
    (hs : env.urlResponse.success = Json.bool true)
    (hd : env.urlResponse.data = Json.null) :
    upload_large_file env application_id version file_name file_content
        release_notes =
      (.ok env.urlResponse,
       [UploadEvent.requestUrl application_id version file_name
          file_content.length "application/octet-stream"]) := by
  simp [upload_large_file, envelopeFailed, hs, hd, Json.truthy, Json.isNull]

/-- Witness for C9 at a concrete successful-but-dataless response. -/
theorem upload_aborts_on_null_data_witness :
    (UploadEnv.mk
        ⟨Json.bool true, 200, Json.null, Json.null, Json.null,
         Json.obj [("success", Json.bool true)]⟩
        ⟨200, "unreached"⟩
        ⟨Json.bool true, 200, Json.null, Json.null, Json.null,
         Json.obj []⟩).urlResponse.success = Json.bool true ∧
    (UploadEnv.mk
        ⟨Json.bool true, 200, Json.null, Json.null, Json.null,
         Json.obj [("success", Json.bool true)]⟩
        ⟨200, "unreached"⟩
        ⟨Json.bool true, 200, Json.null, Json.null, Json.null,
         Json.obj []⟩).urlResponse.data = Json.null ∧
    upload_large_file
        (UploadEnv.mk
          ⟨Json.bool true, 200, Json.null, Json.null, Json.null,
           Json.obj [("success", Json.bool true)]⟩
          ⟨200, "unreached"⟩
          ⟨Json.bool true, 200, Json.null, Json.null, Json.null,
           Json.obj []⟩)
        "app" "2.0.0" "g.bin" [7] none =
      (.ok ⟨Json.bool true, 200, Json.null, Json.null, Json.null,
            Json.obj [("success", Json.bool true)]⟩,
       [UploadEvent.requestUrl "app" "2.0.0" "g.bin" 1
          "application/octet-stream"]) :=
  ⟨rfl, rfl, upload_aborts_on_null_data _ _ _ _ _ _ rfl rfl⟩

/-- C3: when the run reaches the storage PUT and storage answers with
a status other than 200, `upload_large_file` returns the synthesized
failure ApiResult — success=false, statusCode = the storage status,
data=null, meta=null, error = {message: "S3 upload failed: " +
<storage body>}, raw = {error: <storage body>} — and the trace ends
at the PUT: the completion endpoint is never called. -/
theorem upload_synthesizes_failure_on_s3_error (env : UploadEnv)
    (application_id version file_name : String) (file_content : List Nat)
    (release_notes : Option String) (uid uurl : Json)
    (hs : env.urlResponse.success.truthy = true)
    (hd : env.urlResponse.data.isNull = false)
    (hid : env.urlResponse.data.subscript "uploadId" = .ok uid)
    (hurl : env.urlResponse.data.subscript "uploadUrl" = .ok uurl)
    (hst : env.s3Response.status_code ≠ 200) :
    upload_large_file env application_id version file_name file_content
        release_notes =
      (.ok { success := Json.bool false,
             status_code := env.s3Response.status_code,
             data := Json.null,
             error := Json.obj [("message",
               Json.str ("S3 upload failed: " ++ env.s3Response.text))],
             meta := Json.null,
             raw := Json.obj [("error", Json.str env.s3Response.text)] },
       [UploadEvent.requestUrl application_id version file_name
          file_content.length "application/octet-stream",
        UploadEvent.s3Put uurl file_content]) := by
  simp [upload_large_file, envelopeFailed, hs, hd, hid, hurl, hst]

/-- Witness for C3 at a concrete environment whose storage PUT
answers 500. -/
theorem upload_synthesizes_failure_on_s3_error_witness :
    (UploadEnv.mk
        ⟨Json.bool true, 200,
         Json.obj [("uploadId", Json.str "u1"),
                   ("uploadUrl", Json.str "https://s3/x")],
         Json.null, Json.null, Json.obj []⟩
        ⟨500, "boom"⟩
        ⟨Json.bool true, 200, Json.null, Json.null, Json.null,
         Json.obj []⟩).urlResponse.success.truthy = true ∧
    upload_large_file
        (UploadEnv.mk
          ⟨Json.bool true, 200,
           Json.obj [("uploadId", Json.str "u1"),
                     ("uploadUrl", Json.str "https://s3/x")],
           Json.null, Json.null, Json.obj []⟩
          ⟨500, "boom"⟩
          ⟨Json.bool true, 200, Json.null, Json.null, Json.null,
           Json.obj []⟩)
        "app" "1.0.0" "f.bin" [9, 9] none =
      (.ok { success := Json.bool false, status_code := 500,
             data := Json.null,
             error := Json.obj [("message",
               Json.str "S3 upload failed: boom")],
             meta := Json.null,
             raw := Json.obj [("error", Json.str "boom")] },
       [UploadEvent.requestUrl "app" "1.0.0" "f.bin" 2
          "application/octet-stream",
        UploadEvent.s3Put (Json.str "https://s3/x") [9, 9]]) :=
  ⟨rfl, upload_synthesizes_failure_on_s3_error _ _ _ _ _ _
    (Json.str "u1") (Json.str "https://s3/x") rfl rfl rfl rfl
    (by decide)⟩

/-- C1: `upload_large_file` derives the file size and the SHA-256
checksum from the content alone, before any network call: the first
(and in every run the only first) outgoing call already carries
`fileSize = len(content)`, and whenever the completion call is made —
under every environment, whatever the storage layer did — its checksum
argument is exactly `sha256(content)` and its file size is
`len(content)`. -/
theorem upload_checksum_precomputed (env : UploadEnv)
    (application_id version file_name : String) (file_content : List Nat)
    (release_notes : Option String) (uid : Json)
    (aid ver fn : String) (fsz : Nat) (ck : String) (rn : Option String)
    (h : UploadEvent.complete uid aid ver fn fsz ck rn ∈
      (upload_large_file env application_id version file_name file_content
        release_notes).2) :
    ck = sha256hex file_content ∧ fsz = file_content.length ∧
    (upload_large_file env application_id version file_name file_content
        release_notes).2.head? =
      some (UploadEvent.requestUrl application_id version file_name
        file_content.length "application/octet-stream") := by
  by_cases hg : envelopeFailed env.urlResponse
  · simp [upload_large_file, hg] at h
  · rcases hid : env.urlResponse.data.subscript "uploadId" with e | uid'
    · simp [upload_large_file, hg, hid] at h
    · rcases hu : env.urlResponse.data.subscript "uploadUrl" with e | uurl
      · simp [upload_large_file, hg, hid, hu] at h
      · by_cases hst : env.s3Response.status_code = 200
        · simp only [upload_large_file, hg, Bool.false_eq_true,
            if_false, hid, hu, hst, ne_eq, not_true_eq_false,
            if_false, ite_false, List.mem_cons, List.mem_singleton,
            List.not_mem_nil, or_false] at h
          rcases h with h | h | h
          · exact absurd h (by simp)
          · exact absurd h (by simp)
          · obtain ⟨_, ha, hv, hf, hfs, hck, hrn⟩ :=
              UploadEvent.complete.injEq .. ▸ h
            refine ⟨hck, hfs, ?_⟩
            simp [upload_large_file, hg, hid, hu, hst]
        · simp [upload_large_file, hg, hid, hu, hst] at h

/-- Witness for C1: a concrete completing run over the three bytes
"abc"; the completion call carries the SHA-256 digest of "abc". -/
theorem upload_checksum_precomputed_witness :
    UploadEvent.complete (Json.str "u1") "app" "1.0.0" "f.bin" 3
        "ba7816bf8f01cfea414140de5dae2223b00361a396177a9cb410ff61f20015ad"
        none ∈
      (upload_large_file
        (UploadEnv.mk
          ⟨Json.bool true, 200,
           Json.obj [("uploadId", Json.str "u1"),
                     ("uploadUrl", Json.str "https://s3/x")],
           Json.null, Json.null, Json.obj []⟩
          ⟨200, "ok"⟩
          ⟨Json.bool true, 201, Json.null, Json.null, Json.null,
           Json.obj []⟩)
        "app" "1.0.0" "f.bin" [97, 98, 99] none).2 ∧
    ("ba7816bf8f01cfea414140de5dae2223b00361a396177a9cb410ff61f20015ad" =
        sha256hex [97, 98, 99] ∧
     3 = [97, 98, 99].length ∧
     (upload_large_file
        (UploadEnv.mk
          ⟨Json.bool true, 200,
           Json.obj [("uploadId", Json.str "u1"),
                     ("uploadUrl", Json.str "https://s3/x")],
           Json.null, Json.null, Json.obj []⟩
          ⟨200, "ok"⟩
          ⟨Json.bool true, 201, Json.null, Json.null, Json.null,
           Json.obj []⟩)
        "app" "1.0.0" "f.bin" [97, 98, 99] none).2.head? =
      some (UploadEvent.requestUrl "app" "1.0.0" "f.bin" 3
        "application/octet-stream")) :=
  ⟨by decide, upload_checksum_precomputed
    (UploadEnv.mk
      ⟨Json.bool true, 200,
       Json.obj [("uploadId", Json.str "u1"),
                 ("uploadUrl", Json.str "https://s3/x")],
       Json.null, Json.null, Json.obj []⟩
      ⟨200, "ok"⟩
      ⟨Json.bool true, 201, Json.null, Json.null, Json.null, Json.obj []⟩)
    "app" "1.0.0" "f.bin" [97, 98, 99] none (Json.str "u1")
    "app" "1.0.0" "f.bin" 3
    "ba7816bf8f01cfea414140de5dae2223b00361a396177a9cb410ff61f20015ad"
    none (by decide)⟩

/-! ## Claims about the checksum-verified download (C4, C10) -/

/-- C4 (counterexample): a download-URL envelope with `success: true`
and present (non-null) data that merely lacks the `"url"` key makes
`download_file` raise `KeyError` — a raise the claim's "if and only
if" does not allow, since the envelope is successful, its data is
present, and no checksum is involved. -/
theorem download_raises_keyerror_on_missing_url :
    download_file
        (DownloadEnv.mk
          ⟨Json.bool true, 200, Json.obj [("fileName", Json.str "f.bin")],
           Json.null, Json.null, Json.obj []⟩
          [1, 2, 3])
        true =
      .error (.py .keyError) := rfl

/-- C4 (amended): provided the download-URL data contains the `"url"`
key whenever the envelope guard passes, `download_file` raises if and
only if (a) the envelope is unsuccessful or its data is missing — the
raised error carrying the envelope's error — or (b) verification is
requested, the supplied checksum is truthy (non-empty), and it differs
(exact string comparison) from the SHA-256 hex digest of the
downloaded bytes — the raised error carrying both digests.  In
particular, with no (or an empty) server checksum it returns normally
even when verification is requested. -/
theorem download_raises_iff (env : DownloadEnv) (verify_checksum : Bool)
    (hurl : envelopeFailed env.urlResponse = false →
      ∃ u, env.urlResponse.data.subscript "url" = Except.ok u) :
    ((∃ e, download_file env verify_checksum = .error e) ↔
      (envelopeFailed env.urlResponse = true ∨
       (verify_checksum = true ∧
        (env.urlResponse.data.dictGetD "checksum" Json.null).truthy = true ∧
        (env.urlResponse.data.dictGetD "checksum" Json.null).pyEqStr
          (sha256hex env.body) = false))) ∧
    (envelopeFailed env.urlResponse = true →
      download_file env verify_checksum =
        .error (.downloadUrlError env.urlResponse.error)) ∧
    (envelopeFailed env.urlResponse = false →
      verify_checksum = true →
      (env.urlResponse.data.dictGetD "checksum" Json.null).truthy = true →
      (env.urlResponse.data.dictGetD "checksum" Json.null).pyEqStr
        (sha256hex env.body) = false →
      download_file env verify_checksum =
        .error (.checksumMismatch
          (env.urlResponse.data.dictGetD "checksum" Json.null)
          (sha256hex env.body))) := by
  by_cases hg : envelopeFailed env.urlResponse
  · refine ⟨⟨fun _ => Or.inl hg,
      fun _ => ⟨DlError.downloadUrlError env.urlResponse.error,
        by simp [download_file, hg]⟩⟩,
      fun _ => by simp [download_file, hg],
      fun hff => by simp [hff] at hg⟩
  · have hg' : envelopeFailed env.urlResponse = false := by simpa using hg
    obtain ⟨u, hu⟩ := hurl hg'
    by_cases hv : verify_checksum
    · by_cases ht : (env.urlResponse.data.dictGetD "checksum" Json.null).truthy
      · by_cases hp : (env.urlResponse.data.dictGetD "checksum" Json.null).pyEqStr
            (sha256hex env.body)
        · have hdf : download_file env verify_checksum =
              .ok (env.body, downloadMetadata env.urlResponse.data) := by
            simp [download_file, hg', hu, hv, ht, hp]
          refine ⟨?_, fun hgt => by simp [hgt] at hg,
            fun _ _ _ hpf => by simp [hp] at hpf⟩
          rw [hdf]
          simp [hg', hp]
        · have hdf : download_file env verify_checksum =
              .error (.checksumMismatch
                (env.urlResponse.data.dictGetD "checksum" Json.null)
                (sha256hex env.body)) := by
            simp [download_file, hg', hu, hv, ht, hp]
          refine ⟨?_, fun hgt => by simp [hgt] at hg, fun _ _ _ _ => hdf⟩
          rw [hdf]
          simp [hv, ht, hp]
      · have hdf : download_file env verify_checksum =
            .ok (env.body, downloadMetadata env.urlResponse.data) := by
          simp [download_file, hg', hu, hv, ht]
        refine ⟨?_, fun hgt => by simp [hgt] at hg,
          fun _ _ htt _ => by simp [htt] at ht⟩
        rw [hdf]
        simp [hg', ht]
    · have hdf : download_file env verify_checksum =
          .ok (env.body, downloadMetadata env.urlResponse.data) := by
        simp [download_file, hg', hu, hv]
      refine ⟨?_, fun hgt => by simp [hgt] at hg,
        fun _ hvt _ _ => by simp [hvt] at hv⟩
      rw [hdf]
      simp [hg', hv]

/-- Witness for C4 (amended): a concrete tampered download — the
server promises checksum "deadbeef", the bytes "abc" hash to a
different digest, so exactly the mismatch error is raised, carrying
both values. -/
theorem download_raises_iff_witness :
    (envelopeFailed
        (DownloadEnv.mk
          ⟨Json.bool true, 200,
           Json.obj [("url", Json.str "https://s3/d"),
                     ("checksum", Json.str "deadbeef")],
           Json.null, Json.null, Json.obj []⟩
          [97, 98, 99]).urlResponse = false →
      ∃ u, (DownloadEnv.mk
          ⟨Json.bool true, 200,
           Json.obj [("url", Json.str "https://s3/d"),
                     ("checksum", Json.str "deadbeef")],
           Json.null, Json.null, Json.obj []⟩
          [97, 98, 99]).urlResponse.data.subscript "url" = Except.ok u) ∧
    ((∃ e, download_file
        (DownloadEnv.mk
          ⟨Json.bool true, 200,
           Json.obj [("url", Json.str "https://s3/d"),
                     ("checksum", Json.str "deadbeef")],
           Json.null, Json.null, Json.obj []⟩
          [97, 98, 99]) true = .error e) ↔
      (envelopeFailed
        (DownloadEnv.mk
          ⟨Json.bool true, 200,
           Json.obj [("url", Json.str "https://s3/d"),
                     ("checksum", Json.str "deadbeef")],
           Json.null, Json.null, Json.obj []⟩
          [97, 98, 99]).urlResponse = true ∨
       (true = true ∧
        ((DownloadEnv.mk
          ⟨Json.bool true, 200,
           Json.obj [("url", Json.str "https://s3/d"),
                     ("checksum", Json.str "deadbeef")],
           Json.null, Json.null, Json.obj []⟩
          [97, 98, 99]).urlResponse.data.dictGetD "checksum"
            Json.null).truthy = true ∧
        ((DownloadEnv.mk
          ⟨Json.bool true, 200,
           Json.obj [("url", Json.str "https://s3/d"),
                     ("checksum", Json.str "deadbeef")],
           Json.null, Json.null, Json.obj []⟩
          [97, 98, 99]).urlResponse.data.dictGetD "checksum"
            Json.null).pyEqStr (sha256hex [97, 98, 99]) = false))) :=
  ⟨fun _ => ⟨Json.str "https://s3/d", rfl⟩,
   (download_raises_iff
     (DownloadEnv.mk
       ⟨Json.bool true, 200,
        Json.obj [("url", Json.str "https://s3/d"),
                  ("checksum", Json.str "deadbeef")],
        Json.null, Json.null, Json.obj []⟩
       [97, 98, 99]) true
     (fun _ => ⟨Json.str "https://s3/d", rfl⟩)).1⟩

/-- C10: when verification is requested and the download-URL response
supplies a `checksum` field holding the empty string, `download_file`
skips verification and returns the bytes and metadata normally — the
guard tests the value's truthiness, not the key's presence. -/
theorem download_skips_empty_checksum (env : DownloadEnv) (u : Json)
    (hs : env.urlResponse.success.truthy = true)
    (hd : env.urlResponse.data.isNull = false)
    (hu : env.urlResponse.data.subscript "url" = .ok u)
    (hc : env.urlResponse.data.dictGetD "checksum" Json.null = Json.str "") :
    download_file env true =
      .ok (env.body, downloadMetadata env.urlResponse.data) := by
  have hemp : (Json.str "").truthy = false := rfl
  simp [download_file, envelopeFailed, hs, hd, hu, hc, hemp]

/-- Witness for C10: a concrete response carrying `"checksum": ""`;
the download returns normally although the empty string can never
equal a SHA-256 hex digest. -/
theorem download_skips_empty_checksum_witness :
    (DownloadEnv.mk
        ⟨Json.bool true, 200,
         Json.obj [("url", Json.str "https://x"), ("checksum", Json.str "")],
         Json.null, Json.null, Json.obj []⟩
        [5, 6]).urlResponse.success.truthy = true ∧
    (DownloadEnv.mk
        ⟨Json.bool true, 200,
         Json.obj [("url", Json.str "https://x"), ("checksum", Json.str "")],
         Json.null, Json.null, Json.obj []⟩
        [5, 6]).urlResponse.data.dictGetD "checksum" Json.null =
      Json.str "" ∧
    download_file
        (DownloadEnv.mk
          ⟨Json.bool true, 200,
           Json.obj [("url", Json.str "https://x"), ("checksum", Json.str "")],
           Json.null, Json.null, Json.obj []⟩
          [5, 6]) true =
      .ok ([5, 6], downloadMetadata
        (Json.obj [("url", Json.str "https://x"),
                   ("checksum", Json.str "")])) :=
  ⟨rfl, rfl,
   download_skips_empty_checksum
     (DownloadEnv.mk
       ⟨Json.bool true, 200,
        Json.obj [("url", Json.str "https://x"), ("checksum", Json.str "")],
        Json.null, Json.null, Json.obj []⟩
       [5, 6]) (Json.str "https://x") rfl rfl rfl rfl⟩

/-! ## Claim about the request-header discipline (C8) -/

/-- Session requests whose per-call headers set neither
`Authorization` nor `Content-Type` carry the bearer token and the JSON
content type installed by `BaseClient.__init__`. -/
theorem sessionRequest_lookup (c : BaseClient) (method path : String)
    (extra : List (String × String))
    (hA : extra.lookup "Authorization" = none)
    (hC : extra.lookup "Content-Type" = none) :
    (c.sessionRequest method path (some extra)).headers.lookup
        "Authorization" = some ("Bearer " ++ c.api_key) ∧
    (c.sessionRequest method path (some extra)).headers.lookup
        "Content-Type" = some "application/json" := by
  simp [BaseClient.sessionRequest, mergeHeaders, BaseClient.sessionHeaders,
    hA, hC, List.lookup]

/-- C8: for any two client instances (any api_key): the pre-signed
storage PUT sends exactly `{Content-Type: <content_type>}` and the
unauthenticated storage GET sends no headers at all (in particular no
`Authorization`), both requests being identical whatever api_key the
client holds; whereas every authenticated call (GET/POST/PATCH/DELETE
through the session, with per-call headers not overriding these keys)
carries `Authorization: Bearer <key>` and the JSON content type. -/
theorem header_discipline (c c' : BaseClient)
    (url content_type path : String) (extra : List (String × String))
    (hA : extra.lookup "Authorization" = none)
    (hC : extra.lookup "Content-Type" = none) :
    (c.put_binary_request url content_type).headers =
      [("Content-Type", content_type)] ∧
    (c.download_request url).headers = [] ∧
    c.put_binary_request url content_type =
      c'.put_binary_request url content_type ∧
    c.download_request url = c'.download_request url ∧
    ((c.get_request path (some extra)).headers.lookup "Authorization" =
        some ("Bearer " ++ c.api_key) ∧
     (c.get_request path (some extra)).headers.lookup "Content-Type" =
        some "application/json") ∧
    ((c.post_request path (some extra)).headers.lookup "Authorization" =
        some ("Bearer " ++ c.api_key) ∧
     (c.post_request path (some extra)).headers.lookup "Content-Type" =
        some "application/json") ∧
    ((c.patch_request path (some extra)).headers.lookup "Authorization" =
        some ("Bearer " ++ c.api_key) ∧
     (c.patch_request path (some extra)).headers.lookup "Content-Type" =
        some "application/json") ∧
    ((c.delete_request path (some extra)).headers.lookup "Authorization" =
        some ("Bearer " ++ c.api_key) ∧
     (c.delete_request path (some extra)).headers.lookup "Content-Type" =
        some "application/json") :=
  ⟨rfl, rfl, rfl, rfl,
   sessionRequest_lookup c "GET" path extra hA hC,
   sessionRequest_lookup c "POST" path extra hA hC,
   sessionRequest_lookup c "PATCH" path extra hA hC,
   sessionRequest_lookup c "DELETE" path extra hA hC⟩

/-- Witness for C8: two clients with different keys, a pre-signed
storage URL, and the `X-Channel: Test` per-call header the endpoint
callers actually use. -/
theorem header_discipline_witness :
    [("X-Channel", "Test")].lookup "Authorization" =
      (none : Option String) ∧
    ((BaseClient.mk "https://api.bindist.eu" "tenant.secret"
        |>.put_binary_request "https://s3/up"
          "application/octet-stream").headers =
      [("Content-Type", "application/octet-stream")] ∧
     (BaseClient.mk "https://api.bindist.eu" "tenant.secret"
        |>.download_request "https://s3/up").headers = [] ∧
     (BaseClient.mk "https://api.bindist.eu" "tenant.secret"
        |>.put_binary_request "https://s3/up" "application/octet-stream") =
      (BaseClient.mk "https://api.bindist.eu" "other.key"
        |>.put_binary_request "https://s3/up" "application/octet-stream") ∧
     (BaseClient.mk "https://api.bindist.eu" "tenant.secret"
        |>.download_request "https://s3/up") =
      (BaseClient.mk "https://api.bindist.eu" "other.key"
        |>.download_request "https://s3/up") ∧
     ((BaseClient.mk "https://api.bindist.eu" "tenant.secret"
        |>.get_request "/applications"
          (some [("X-Channel", "Test")])).headers.lookup "Authorization" =
        some "Bearer tenant.secret" ∧
      (BaseClient.mk "https://api.bindist.eu" "tenant.secret"
        |>.get_request "/applications"
          (some [("X-Channel", "Test")])).headers.lookup "Content-Type" =
        some "application/json") ∧
     ((BaseClient.mk "https://api.bindist.eu" "tenant.secret"
        |>.post_request "/applications"
          (some [("X-Channel", "Test")])).headers.lookup "Authorization" =
        some "Bearer tenant.secret" ∧
      (BaseClient.mk "https://api.bindist.eu" "tenant.secret"
        |>.post_request "/applications"
          (some [("X-Channel", "Test")])).headers.lookup "Content-Type" =
        some "application/json") ∧
     ((BaseClient.mk "https://api.bindist.eu" "tenant.secret"
        |>.patch_request "/applications"
          (some [("X-Channel", "Test")])).headers.lookup "Authorization" =
        some "Bearer tenant.secret" ∧
      (BaseClient.mk "https://api.bindist.eu" "tenant.secret"
        |>.patch_request "/applications"
          (some [("X-Channel", "Test")])).headers.lookup "Content-Type" =
        some "application/json") ∧
     ((BaseClient.mk "https://api.bindist.eu" "tenant.secret"
        |>.delete_request "/applications"
          (some [("X-Channel", "Test")])).headers.lookup "Authorization" =
        some "Bearer tenant.secret" ∧
      (BaseClient.mk "https://api.bindist.eu" "tenant.secret"
        |>.delete_request "/applications"
          (some [("X-Channel", "Test")])).headers.lookup "Content-Type" =
        some "application/json")) :=
  ⟨rfl, header_discipline
    (BaseClient.mk "https://api.bindist.eu" "tenant.secret")
    (BaseClient.mk "https://api.bindist.eu" "other.key")
    "https://s3/up" "application/octet-stream" "/applications"
    [("X-Channel", "Test")] rfl rfl⟩
